import Mathlib

/-!
Shallow embedding of the shop bot core (src/bot.py): the SQLite-backed
ledger (users, items, purchases, transfers, settings tables), the
transfer and purchase-confirmation flows, the delivery size check, and
the Google-Drive link normalization helpers.

Machine-level conventions of the embedding:
* each SQL table is a list of rows in physical (insertion) order;
* `SELECT ... WHERE key=?` on a keyed table is first-match lookup;
* `UPDATE ... WHERE key=?` updates every matching row (with the PRIMARY
  KEY constraint there is at most one, which the well-formedness
  predicates below express);
* AUTOINCREMENT ids are modelled by explicit `next_*` counters;
* `datetime.now()` is threaded in as an explicit timestamp argument;
* the network/Discord side of the purchase flow (gdown download,
  `target.send`) is abstracted by a `FetchOutcome` parameter recording
  how the environment behaved; everything the Python code decides from
  that outcome (timeout, exception, size check against
  `MAX_UPLOAD_BYTES`) is embedded faithfully.
-/

namespace ShopBot

/-- `MAX_UPLOAD_BYTES = 24 * 1024 * 1024` from bot.py. -/
def MAX_UPLOAD_BYTES : Nat := 24 * 1024 * 1024

/-- Row of the `items` table. -/
structure Item where
  id : Nat
  name : String
  price_cents : Int
  gdrive_url : String
  filename : String
  is_active : Int
deriving DecidableEq, Repr

/-- Row of the `purchases` table. -/
structure PurchaseRec where
  id : Nat
  discord_id : Int
  item_id : Nat
  price_cents : Int
  created_at : String
deriving DecidableEq, Repr

/-- Row of the `transfers` table. -/
structure TransferRec where
  id : Nat
  from_id : Int
  to_id : Int
  amount_cents : Int
  created_at : String
deriving DecidableEq, Repr

/-- The whole durable state of the bot: the SQLite database. -/
structure ShopState where
  users : List (Int × Int)
  items : List Item
  purchases : List PurchaseRec
  transfers : List TransferRec
  settings : List (String × String)
  next_item_id : Nat
  next_purchase_id : Nat
  next_transfer_id : Nat
deriving DecidableEq, Repr

/-- `SELECT balance_cents FROM users WHERE discord_id=?` (first match). -/
def usersLookup : List (Int × Int) → Int → Option Int
  | [], _ => none
  | e :: t, i => if e.1 = i then some e.2 else usersLookup t i

/-- `UPDATE users SET balance_cents = balance_cents + d WHERE discord_id=?`:
updates every matching row. -/
def usersAdjust : List (Int × Int) → Int → Int → List (Int × Int)
  | [], _, _ => []
  | e :: t, i, d => (if e.1 = i then (e.1, e.2 + d) else e) :: usersAdjust t i d

def lookupUser (s : ShopState) (i : Int) : Option Int :=
  usersLookup s.users i

/-- Observable balance of an account: the stored value, or 0 when the row
is absent (what `get_balance` reports after its lazy insert). -/
def balanceOf (s : ShopState) (i : Int) : Int :=
  (usersLookup s.users i).getD 0

/-- `ensure_user`: `INSERT OR IGNORE INTO users (discord_id) VALUES (?)`
with `balance_cents` defaulting to 0. -/
def ensure_user (s : ShopState) (i : Int) : ShopState :=
  if (usersLookup s.users i).isSome then s
  else { s with users := s.users ++ [(i, 0)] }

/-- `get_balance`: ensure the row exists, then read it; returns the value
and the (possibly extended) state. -/
def get_balance (s : ShopState) (i : Int) : Int × ShopState :=
  let s1 := ensure_user s i
  (balanceOf s1 i, s1)

def updateBalance (s : ShopState) (i : Int) (d : Int) : ShopState :=
  { s with users := usersAdjust s.users i d }

/-- `add_balance`: ensure the row exists, then `balance += cents`. -/
def add_balance (s : ShopState) (i : Int) (cents : Int) : ShopState :=
  updateBalance (ensure_user s i) i cents

/-- `add_purchase`: inside one transaction, INSERT the purchase row and
UPDATE the buyer's balance downward.  Note: no `ensure_user` here. -/
def add_purchase (s : ShopState) (buyer : Int) (item_id : Nat)
    (price_cents : Int) (ts : String) : ShopState :=
  let s1 := { s with
    purchases := s.purchases ++
      [⟨s.next_purchase_id, buyer, item_id, price_cents, ts⟩],
    next_purchase_id := s.next_purchase_id + 1 }
  updateBalance s1 buyer (-price_cents)

/-- `SELECT value FROM settings WHERE key=?`, with a default. -/
def settingsLookup : List (String × String) → String → Option String
  | [], _ => none
  | e :: t, k => if e.1 = k then some e.2 else settingsLookup t k

def get_setting (s : ShopState) (key default : String) : String :=
  (settingsLookup s.settings key).getD default

/-- `SELECT * FROM items WHERE id=?` (first match). -/
def itemsFind : List Item → Nat → Option Item
  | [], _ => none
  | it :: t, i => if it.id = i then some it else itemsFind t i

def get_item (s : ShopState) (item_id : Nat) : Option Item :=
  itemsFind s.items item_id

/-- `upsert_item`: with no id, INSERT (active = 1) and return `lastrowid`;
with an id, UPDATE the non-active fields of every matching row and return
the given id. -/
def upsert_item (s : ShopState) (name : String) (price_cents : Int)
    (gdrive_url : String) (filename : String) (item_id : Option Nat) :
    Nat × ShopState :=
  match item_id with
  | none =>
    (s.next_item_id,
      { s with
        items := s.items ++
          [⟨s.next_item_id, name, price_cents, gdrive_url, filename, 1⟩],
        next_item_id := s.next_item_id + 1 })
  | some iid =>
    (iid,
      { s with
        items := s.items.map fun it =>
          if it.id = iid then
            { it with name := name, price_cents := price_cents,
                      gdrive_url := gdrive_url, filename := filename }
          else it })

/-- `delete_item`: DELETE the row, report `rowcount > 0`. -/
def delete_item (s : ShopState) (item_id : Nat) : Bool × ShopState :=
  (s.items.any fun it => it.id = item_id,
    { s with items := s.items.filter fun it => it.id ≠ item_id })

def set_item_active (s : ShopState) (item_id : Nat) (active : Bool) : ShopState :=
  { s with items := s.items.map fun it =>
      if it.id = item_id then { it with is_active := if active then 1 else 0 }
      else it }

/-- A returned history row of `get_my_purchases`:
`(p.id, p.created_at, p.price_cents, i.name)`. -/
def purchaseRow (s : ShopState) (p : PurchaseRec) : Nat × String × Int × String :=
  (p.id, p.created_at, p.price_cents, ((get_item s p.item_id).map Item.name).getD "")

/-- `get_my_purchases`:
`SELECT ... FROM purchases p JOIN items i ON p.item_id=i.id WHERE
p.discord_id=? ORDER BY p.id DESC LIMIT ?`.  The inner JOIN keeps only
rows whose item still exists.  Under the AUTOINCREMENT invariant
(`PurchasesWF` below) physical order is ascending id, so `ORDER BY p.id
DESC` is realized by reversing the filtered rows. -/
def get_my_purchases (s : ShopState) (uid : Int) (limit : Nat) :
    List (Nat × String × Int × String) :=
  (((s.purchases.filter fun p =>
      p.discord_id = uid ∧ (get_item s p.item_id).isSome).reverse.take limit).map
    (purchaseRow s))

/-- The four distinct `(ok, reason)` results of `transfer_balance`
(each constructor stands for one of the distinct returned messages). -/
inductive TransferResult where
  | nonPositiveAmount
  | selfTransfer
  | insufficientFunds
  | ok
deriving DecidableEq, Repr

/-- `transfer_balance(from_id, to_id, amount_cents)` from bot.py. -/
def transfer_balance (s : ShopState) (from_id to_id : Int)
    (amount_cents : Int) (ts : String) : TransferResult × ShopState :=
  if amount_cents ≤ 0 then (.nonPositiveAmount, s)
  else if from_id = to_id then (.selfTransfer, s)
  else
    let s1 := ensure_user (ensure_user s from_id) to_id
    let bal := balanceOf s1 from_id
    if bal < amount_cents then (.insufficientFunds, s1)
    else
      let s2 := updateBalance s1 from_id (-amount_cents)
      let s3 := updateBalance s2 to_id amount_cents
      (.ok,
        { s3 with
          transfers := s3.transfers ++
            [⟨s3.next_transfer_id, from_id, to_id, amount_cents, ts⟩],
          next_transfer_id := s3.next_transfer_id + 1 })

/-- How the environment behaved during `deliver_file`: the download
completed with a file of `size` bytes and the subsequent Discord send
either worked (`sendOk = true`) or raised (`sendOk = false`); or the
download hit the 120 s `asyncio.TimeoutError`; or it raised some other
exception; or — `dmCreateRaised` — resolving the delivery target itself
raised: `target = channel if channel is not None else await
user.create_dm()` sits on the first line of `deliver_file`, *before*
the `try` block, so an exception from `create_dm()` escapes the
function uncaught. -/
inductive FetchOutcome where
  | fetched (size : Nat) (sendOk : Bool)
  | timeout
  | exn
  | dmCreateRaised
deriving DecidableEq, Repr

/-- The distinct failure messages `deliver_file` can return (the
oversized one carries the byte size that the message interpolates, as
`size/1024/1024:.1f` MB). -/
inductive DeliverReason where
  | noError
  | payloadTooLarge (size_bytes : Nat)
  | timeout
  | downloadError
deriving DecidableEq, Repr

/-- `deliver_file` from bot.py, as a function of the environment's
behaviour.  Target resolution comes first and is *outside* the
`try`/`except`: `dmCreateRaised` therefore propagates out of the
function as an uncaught exception, modelled as `Except.error`.  Inside
the `try`: download, compare the size against `MAX_UPLOAD_BYTES`, send
inside the small-enough branch; the `except` clauses map the timeout
and any other exception (download or send) to their returned
messages. -/
def deliver_file (fetch : FetchOutcome) : Except Unit (Bool × DeliverReason) :=
  match fetch with
  | .dmCreateRaised => .error ()
  | .fetched size sendOk =>
    if size ≤ MAX_UPLOAD_BYTES then
      if sendOk then .ok (true, .noError) else .ok (false, .downloadError)
    else .ok (false, .payloadTooLarge size)
  | .timeout => .ok (false, .timeout)
  | .exn => .ok (false, .downloadError)

/-- The outcome of `ConfirmBuyView._handle`.  `uncaughtError` is the
path where `deliver_file` itself raised (target resolution failed):
`_handle` has no handler around the `await deliver_file(...)` call, so
the exception escapes `_handle` too — no refund, no report to the
buyer. -/
inductive ConfirmOutcome where
  | itemUnavailable
  | shopClosed
  | insufficientFunds
  | delivered
  | refunded (r : DeliverReason)
  | uncaughtError
deriving DecidableEq, Repr

/-- `ConfirmBuyView._handle` from bot.py: re-check item existence and
active flag, re-check the `shop_open` setting, check the balance, then
`add_purchase` (debit + record), attempt delivery, and on a returned
failure `add_balance` the price back before reporting the error.  When
`deliver_file` raises instead of returning, control leaves `_handle`
with the debit and the purchase record already committed and no refund
performed. -/
def handleConfirm (s : ShopState) (buyer : Int) (item_id : Nat)
    (ts : String) (fetch : FetchOutcome) : ConfirmOutcome × ShopState :=
  match get_item s item_id with
  | none => (.itemUnavailable, s)
  | some item =>
    if item.is_active = 0 then (.itemUnavailable, s)
    else if get_setting s "shop_open" "1" = "1" then
      let price := item.price_cents
      let br := get_balance s buyer
      if br.1 < price then (.insufficientFunds, br.2)
      else
        let s2 := add_purchase br.2 buyer item.id price ts
        match deliver_file fetch with
        | .error _ => (.uncaughtError, s2)
        | .ok d =>
          if d.1 then (.delivered, s2)
          else (.refunded d.2, add_balance s2 buyer price)
    else (.shopClosed, s)

/-! ### String helpers: filenames and Google-Drive links

Python strings are modelled as `List Char`. -/

/-- The literal `".mp4"`. -/
def mp4Ext : List Char := ['.', 'm', 'p', '4']

/-- Python `s.endswith(suf)`. -/
def endsWithL (s suf : List Char) : Bool :=
  suf == s.drop (s.length - suf.length)

/-- The output filename chosen by `download_drive_to_temp`:
`filename_hint if filename_hint.endswith(".mp4") else f"{filename_hint}.mp4"`. -/
def outputFilename (hint : List Char) : List Char :=
  if endsWithL hint mp4Ext then hint else hint ++ mp4Ext

/-- The character class `[A-Za-z0-9_-]` of `_GDRIVE_ID_RE`. -/
def isIdChar (c : Char) : Bool :=
  c.isAlpha || c.isDigit || c == '_' || c == '-'

/-- Characters removed by Python `str.strip()` (no arguments). -/
def isPySpace (c : Char) : Bool :=
  c == ' ' || c == '\t' || c == '\n' || c == '\r' ||
    c == Char.ofNat 11 || c == Char.ofNat 12

/-- Characters removed by `.strip('<>')`. -/
def isAngleChar (c : Char) : Bool := c == '<' || c == '>'

/-- Characters removed by `.strip('"\'')`. -/
def isQuoteChar (c : Char) : Bool := c == '"' || c == Char.ofNat 39

def stripLeading (p : Char → Bool) (l : List Char) : List Char :=
  l.dropWhile p

def stripTrailing (p : Char → Bool) (l : List Char) : List Char :=
  (l.reverse.dropWhile p).reverse

/-- Python `s.strip(chars)`: remove the characters from both ends. -/
def stripBoth (p : Char → Bool) (l : List Char) : List Char :=
  stripTrailing p (stripLeading p l)

/-- `_clean_link`: `s.strip().strip('<>').strip('"\'')`. -/
def _clean_link (l : List Char) : List Char :=
  stripBoth isQuoteChar (stripBoth isAngleChar (stripBoth isPySpace l))

/-- Does `s` start with the literal marker `mk`? -/
def startsWithL : List Char → List Char → Bool
  | _, [] => true
  | [], _ :: _ => false
  | c :: s, p :: ps => c == p && startsWithL s ps

/-- One alternative of `_GDRIVE_ID_RE` at a fixed position: the marker
(`"/d/"` or `"id="`) followed by a greedy run of at least 10 id
characters; returns the captured group. -/
def tryMarker (mk s : List Char) : Option (List Char) :=
  if startsWithL s mk then
    if 10 ≤ ((s.drop mk.length).takeWhile isIdChar).length then
      some ((s.drop mk.length).takeWhile isIdChar)
    else none
  else none

/-- `re.search` of `_GDRIVE_ID_RE`: scan left to right, at each position
try `/d/` then `id=`, return the first captured group. -/
def reSearchGdrive : List Char → Option (List Char)
  | [] => none
  | c :: rest =>
    match tryMarker ['/', 'd', '/'] (c :: rest) with
    | some r => some r
    | none =>
      match tryMarker ['i', 'd', '='] (c :: rest) with
      | some r => some r
      | none => reSearchGdrive rest

/-- `_gdrive_file_id` from bot.py (it re-cleans its argument). -/
def _gdrive_file_id (l : List Char) : Option (List Char) :=
  match reSearchGdrive (_clean_link l) with
  | some g => some g
  | none =>
    if (_clean_link l).contains '/' = false ∧ 10 ≤ (_clean_link l).length then
      some (_clean_link l)
    else none

/-- The canonical prefix, spelling `"https://drive.google.com/uc?id="`. -/
def canonPre : List Char :=
  ['h', 't', 't', 'p', 's', ':', '/', '/', 'd', 'r', 'i', 'v', 'e', '.',
   'g', 'o', 'o', 'g', 'l', 'e', '.', 'c', 'o', 'm', '/', 'u', 'c', '?',
   'i', 'd', '=']

/-- `normalize_gdrive_for_download` from bot.py: clean, extract the file
id (which cleans once more), and either build the canonical `uc?id=` URL
or return the cleaned input. -/
def normalize_gdrive_for_download (l : List Char) : List Char :=
  match _gdrive_file_id (_clean_link l) with
  | some fid => canonPre ++ fid
  | none => _clean_link l

/-! ### Well-formedness predicates

These express the SQLite PRIMARY KEY / AUTOINCREMENT invariants the
schema guarantees for any database the program built. -/

/-- `users.discord_id` is a PRIMARY KEY: no duplicate account rows. -/
def UsersWF (s : ShopState) : Prop := (s.users.map Prod.fst).Nodup

/-- AUTOINCREMENT on `items.id`. -/
def ItemsWF (s : ShopState) : Prop := ∀ it ∈ s.items, it.id < s.next_item_id

/-- AUTOINCREMENT on `purchases.id`: rows sit in ascending-id order. -/
def PurchasesWF (s : ShopState) : Prop :=
  (s.purchases.map PurchaseRec.id).Pairwise (· < ·)

/-- Sum of all stored balances. -/
def totalBalance (s : ShopState) : Int := (s.users.map Prod.snd).sum

/-! ### Lemmas about the users table -/

theorem usersLookup_append (l1 l2 : List (Int × Int)) (x : Int) :
    usersLookup (l1 ++ l2) x =
      match usersLookup l1 x with
      | some v => some v
      | none => usersLookup l2 x := by
  induction l1 with
  | nil => simp [usersLookup]
  | cons e t ih =>
    by_cases h : e.1 = x <;> simp [usersLookup, h, ih]

theorem usersLookup_adjust_self (l : List (Int × Int)) (i d : Int) :
    usersLookup (usersAdjust l i d) i = (usersLookup l i).map (· + d) := by
  induction l with
  | nil => simp [usersLookup, usersAdjust]
  | cons e t ih =>
    by_cases h : e.1 = i <;> simp [usersLookup, usersAdjust, h, ih]

theorem usersLookup_adjust_other (l : List (Int × Int)) (i d x : Int)
    (hx : x ≠ i) :
    usersLookup (usersAdjust l i d) x = usersLookup l x := by
  have hix : ¬ i = x := fun hc => hx hc.symm
  induction l with
  | nil => simp [usersAdjust]
  | cons e t ih =>
    by_cases h : e.1 = i
    · simp [usersAdjust, usersLookup, h, hix, ih]
    · by_cases h2 : e.1 = x <;>
        simp [usersAdjust, usersLookup, h, h2, hx, hix, ih]

theorem usersAdjust_keys (l : List (Int × Int)) (i d : Int) :
    (usersAdjust l i d).map Prod.fst = l.map Prod.fst := by
  induction l with
  | nil => rfl
  | cons e t ih =>
    by_cases h : e.1 = i <;> simp [usersAdjust, h, ih]

theorem usersLookup_isSome_iff_mem (l : List (Int × Int)) (x : Int) :
    (usersLookup l x).isSome = true ↔ x ∈ l.map Prod.fst := by
  induction l with
  | nil => simp [usersLookup]
  | cons e t ih =>
    by_cases h : e.1 = x
    · simp [usersLookup, h]
    · simp only [usersLookup, h, if_false, List.map_cons, List.mem_cons, ih]
      constructor
      · exact Or.inr
      · rintro (hc | hc)
        · exact absurd hc.symm h
        · exact hc

theorem usersAdjust_of_not_mem (l : List (Int × Int)) (i d : Int)
    (h : i ∉ l.map Prod.fst) : usersAdjust l i d = l := by
  induction l with
  | nil => rfl
  | cons e t ih =>
    simp only [List.map_cons, List.mem_cons, not_or] at h
    have : e.1 ≠ i := fun hc => h.1 hc.symm
    simp [usersAdjust, this, ih h.2]

theorem usersSum_adjust (l : List (Int × Int)) (i d : Int)
    (hnd : (l.map Prod.fst).Nodup) (hmem : (usersLookup l i).isSome = true) :
    ((usersAdjust l i d).map Prod.snd).sum = (l.map Prod.snd).sum + d := by
  induction l with
  | nil => simp [usersLookup] at hmem
  | cons e t ih =>
    simp only [List.map_cons, List.nodup_cons] at hnd
    by_cases h : e.1 = i
    · have : usersAdjust t i d = t := by
        apply usersAdjust_of_not_mem
        rw [← h]; exact hnd.1
      simp [usersAdjust, h, this]
      ring
    · simp only [usersLookup, h, if_false] at hmem
      simp [usersAdjust, h, ih hnd.2 hmem]
      ring

/-! ### Lemmas about the ledger operations -/

theorem ensure_user_users_of_isSome (s : ShopState) (i : Int)
    (h : (usersLookup s.users i).isSome = true) : ensure_user s i = s := by
  simp [ensure_user, h]

theorem balanceOf_ensure_user (s : ShopState) (i x : Int) :
    balanceOf (ensure_user s i) x = balanceOf s x := by
  unfold balanceOf ensure_user
  split
  · rfl
  · next hnone =>
    simp only
    rw [usersLookup_append]
    cases hx : usersLookup s.users x with
    | some v => simp
    | none =>
      by_cases hxi : i = x <;> simp [usersLookup, hxi, hx]

theorem lookup_ensure_user_self (s : ShopState) (i : Int) :
    usersLookup (ensure_user s i).users i = some (balanceOf s i) := by
  unfold ensure_user balanceOf
  split
  · next hsome =>
    cases hx : usersLookup s.users i with
    | some v => simp [hx]
    | none => simp [hx] at hsome
  · next hnone =>
    simp only
    rw [usersLookup_append]
    cases hx : usersLookup s.users i with
    | some v => simp [hx] at hnone
    | none => simp [usersLookup, hx]

theorem ensure_user_isSome_self (s : ShopState) (i : Int) :
    (usersLookup (ensure_user s i).users i).isSome = true := by
  rw [lookup_ensure_user_self]; rfl

theorem ensure_user_isSome_mono (s : ShopState) (i x : Int)
    (h : (usersLookup s.users x).isSome = true) :
    (usersLookup (ensure_user s i).users x).isSome = true := by
  unfold ensure_user
  split
  · exact h
  · simp only
    rw [usersLookup_append]
    cases hx : usersLookup s.users x with
    | some v => simp
    | none => rw [hx] at h; simp at h

theorem ensure_user_purchases (s : ShopState) (i : Int) :
    (ensure_user s i).purchases = s.purchases := by
  unfold ensure_user; split <;> rfl

theorem ensure_user_transfers (s : ShopState) (i : Int) :
    (ensure_user s i).transfers = s.transfers := by
  unfold ensure_user; split <;> rfl

theorem ensure_user_items (s : ShopState) (i : Int) :
    (ensure_user s i).items = s.items := by
  unfold ensure_user; split <;> rfl

theorem ensure_user_settings (s : ShopState) (i : Int) :
    (ensure_user s i).settings = s.settings := by
  unfold ensure_user; split <;> rfl

theorem ensure_user_next_transfer_id (s : ShopState) (i : Int) :
    (ensure_user s i).next_transfer_id = s.next_transfer_id := by
  unfold ensure_user; split <;> rfl

theorem ensure_user_next_purchase_id (s : ShopState) (i : Int) :
    (ensure_user s i).next_purchase_id = s.next_purchase_id := by
  unfold ensure_user; split <;> rfl

theorem balanceOf_updateBalance_self (s : ShopState) (i d : Int)
    (h : (usersLookup s.users i).isSome = true) :
    balanceOf (updateBalance s i d) i = balanceOf s i + d := by
  unfold balanceOf updateBalance
  simp only
  rw [usersLookup_adjust_self]
  cases hx : usersLookup s.users i with
  | some v => simp
  | none => rw [hx] at h; simp at h

theorem balanceOf_updateBalance_other (s : ShopState) (i d x : Int)
    (hx : x ≠ i) :
    balanceOf (updateBalance s i d) x = balanceOf s x := by
  unfold balanceOf updateBalance
  simp only
  rw [usersLookup_adjust_other _ _ _ _ hx]

theorem updateBalance_isSome (s : ShopState) (i d x : Int) :
    (usersLookup (updateBalance s i d).users x).isSome =
      (usersLookup s.users x).isSome := by
  unfold updateBalance
  simp only
  by_cases hx : x = i
  · subst hx
    rw [usersLookup_adjust_self]
    cases usersLookup s.users x <;> rfl
  · rw [usersLookup_adjust_other _ _ _ _ hx]

theorem totalBalance_ensure_user (s : ShopState) (i : Int) :
    totalBalance (ensure_user s i) = totalBalance s := by
  unfold totalBalance ensure_user
  split
  · rfl
  · simp

theorem usersWF_ensure_user (s : ShopState) (i : Int) (h : UsersWF s) :
    UsersWF (ensure_user s i) := by
  unfold UsersWF ensure_user at *
  split
  · exact h
  · next hnone =>
    simp only [List.map_append, List.map_cons, List.map_nil]
    rw [List.nodup_append]
    refine ⟨h, List.nodup_singleton i, ?_⟩
    intro a ha hb
    simp only [List.mem_singleton] at hb
    subst hb
    rw [← usersLookup_isSome_iff_mem] at ha
    rw [ha] at hnone
    simp at hnone

theorem usersWF_updateBalance (s : ShopState) (i d : Int) (h : UsersWF s) :
    UsersWF (updateBalance s i d) := by
  unfold UsersWF updateBalance at *
  simpa [usersAdjust_keys] using h

theorem totalBalance_updateBalance (s : ShopState) (i d : Int)
    (hnd : UsersWF s) (hmem : (usersLookup s.users i).isSome = true) :
    totalBalance (updateBalance s i d) = totalBalance s + d := by
  unfold totalBalance updateBalance
  exact usersSum_adjust s.users i d hnd hmem

/-! ### Lemmas about the items table -/

theorem itemsMap_no_match (l : List Item) (iid : Nat) (f : Item → Item)
    (h : ∀ it ∈ l, it.id ≠ iid) :
    (l.map fun it => if it.id = iid then f it else it) = l := by
  induction l with
  | nil => rfl
  | cons it t ih =>
    have h1 : it.id ≠ iid := h it (List.mem_cons_self it t)
    have h2 : ∀ x ∈ t, x.id ≠ iid := fun x hx => h x (List.mem_cons_of_mem it hx)
    simp [h1, ih h2]

/-! ### Lemmas about filenames and link cleaning -/

theorem takeWhile_of_all (p : Char → Bool) (l : List Char)
    (h : l.all p = true) : l.takeWhile p = l := by
  induction l with
  | nil => rfl
  | cons c t ih =>
    simp only [List.all_cons, Bool.and_eq_true] at h
    simp [List.takeWhile_cons, h.1, ih h.2]

theorem dropWhile_eq_self_of_head (p : Char → Bool) (l : List Char)
    (h : ∀ c ∈ l.head?, p c = false) : l.dropWhile p = l := by
  cases l with
  | nil => rfl
  | cons c t =>
    have : p c = false := h c rfl
    simp [List.dropWhile_cons, this]

theorem stripTrailing_eq_self (p : Char → Bool) (l : List Char)
    (h : ∀ c ∈ l.getLast?, p c = false) : stripTrailing p l = l := by
  unfold stripTrailing
  rw [dropWhile_eq_self_of_head, List.reverse_reverse]
  intro c hc
  apply h
  rwa [List.head?_reverse] at hc

theorem stripBoth_eq_self (p : Char → Bool) (l : List Char)
    (h1 : ∀ c ∈ l.head?, p c = false) (h2 : ∀ c ∈ l.getLast?, p c = false) :
    stripBoth p l = l := by
  unfold stripBoth stripLeading
  rw [dropWhile_eq_self_of_head p l h1, stripTrailing_eq_self p l h2]

theorem not_id_of_pySpace (c : Char) (h : isPySpace c = true) :
    isIdChar c = false := by
  unfold isPySpace at h
  simp only [Bool.or_eq_true, beq_iff_eq] at h
  rcases h with ((((rfl | rfl) | rfl) | rfl) | rfl) | rfl <;> decide

theorem not_id_of_angle (c : Char) (h : isAngleChar c = true) :
    isIdChar c = false := by
  unfold isAngleChar at h
  simp only [Bool.or_eq_true, beq_iff_eq] at h
  rcases h with rfl | rfl <;> decide

theorem not_id_of_quote (c : Char) (h : isQuoteChar c = true) :
    isIdChar c = false := by
  unfold isQuoteChar at h
  simp only [Bool.or_eq_true, beq_iff_eq] at h
  rcases h with rfl | rfl <;> decide

theorem isIdChar_not_special (c : Char) (h : isIdChar c = true) :
    isPySpace c = false ∧ isAngleChar c = false ∧ isQuoteChar c = false := by
  refine ⟨?_, ?_, ?_⟩
  · cases hp : isPySpace c with
    | false => rfl
    | true => rw [not_id_of_pySpace c hp] at h; exact absurd h (by simp)
  · cases hp : isAngleChar c with
    | false => rfl
    | true => rw [not_id_of_angle c hp] at h; exact absurd h (by simp)
  · cases hp : isQuoteChar c with
    | false => rfl
    | true => rw [not_id_of_quote c hp] at h; exact absurd h (by simp)

/-! ### Lemmas about the Google-Drive regex scan -/

theorem tryMarker_some (mk s r : List Char) (h : tryMarker mk s = some r) :
    10 ≤ r.length ∧ r.all isIdChar = true := by
  unfold tryMarker at h
  split at h
  · split at h
    · next hlen =>
      simp only [Option.some.injEq] at h
      subst h
      refine ⟨hlen, ?_⟩
      simp only [List.all_eq_true]
      intro x hx
      exact List.mem_takeWhile_imp hx
    · simp at h
  · simp at h

theorem reSearchGdrive_some (l g : List Char)
    (h : reSearchGdrive l = some g) :
    10 ≤ g.length ∧ g.all isIdChar = true := by
  induction l with
  | nil => simp [reSearchGdrive] at h
  | cons c rest ih =>
    rw [reSearchGdrive] at h
    cases h1 : tryMarker ['/', 'd', '/'] (c :: rest) with
    | some r =>
      rw [h1] at h
      simp only [Option.some.injEq] at h
      subst h
      exact tryMarker_some _ _ _ h1
    | none =>
      rw [h1] at h
      cases h2 : tryMarker ['i', 'd', '='] (c :: rest) with
      | some r =>
        rw [h2] at h
        simp only [Option.some.injEq] at h
        subst h
        exact tryMarker_some _ _ _ h2
      | none =>
        rw [h2] at h
        exact ih h

theorem gdrive_file_id_some (l fid : List Char)
    (h : _gdrive_file_id l = some fid) : 10 ≤ fid.length := by
  unfold _gdrive_file_id at h
  split at h
  · next g heq =>
    simp only [Option.some.injEq] at h
    subst h
    exact (reSearchGdrive_some _ _ heq).1
  · split at h
    · next hc =>
      simp only [Option.some.injEq] at h
      subst h
      exact hc.2
    · simp at h

theorem reSearchGdrive_canonical (fid : List Char)
    (h1 : fid.all isIdChar = true) (h2 : 10 ≤ fid.length) :
    reSearchGdrive (canonPre ++ fid) = some fid := by
  simp [canonPre, reSearchGdrive, tryMarker, startsWithL,
    takeWhile_of_all isIdChar fid h1, h2]

theorem clean_link_canonical (fid : List Char)
    (h1 : fid.all isIdChar = true) (h2 : 10 ≤ fid.length) :
    _clean_link (canonPre ++ fid) = canonPre ++ fid := by
  have hne : fid ≠ [] := by
    intro hc
    subst hc
    simp at h2
  have hlast : ∀ c ∈ (canonPre ++ fid).getLast?, isIdChar c = true := by
    intro c hc
    rw [List.getLast?_append_of_ne_nil _ hne] at hc
    have hmem : c ∈ fid := List.mem_of_mem_getLast? hc
    simp only [List.all_eq_true] at h1
    exact h1 c hmem
  have hhead : (canonPre ++ fid).head? = some 'h' := by
    simp [canonPre]
  have hh : ∀ p : Char → Bool, p 'h' = false →
      ∀ c ∈ (canonPre ++ fid).head?, p c = false := by
    intro p hp c hc
    rw [hhead] at hc
    simp only [Option.mem_def, Option.some.injEq] at hc
    subst hc
    exact hp
  have hs1 : stripBoth isPySpace (canonPre ++ fid) = canonPre ++ fid :=
    stripBoth_eq_self _ _ (hh _ (by decide))
      (fun c hc => (isIdChar_not_special c (hlast c hc)).1)
  have hs2 : stripBoth isAngleChar (canonPre ++ fid) = canonPre ++ fid :=
    stripBoth_eq_self _ _ (hh _ (by decide))
      (fun c hc => ((isIdChar_not_special c (hlast c hc)).2).1)
  have hs3 : stripBoth isQuoteChar (canonPre ++ fid) = canonPre ++ fid :=
    stripBoth_eq_self _ _ (hh _ (by decide))
      (fun c hc => ((isIdChar_not_special c (hlast c hc)).2).2)
  unfold _clean_link
  rw [hs1, hs2, hs3]

/-! ### Lemmas about the purchase flow -/

theorem get_balance_fst (s : ShopState) (i : Int) :
    (get_balance s i).1 = balanceOf s i := by
  show balanceOf (ensure_user s i) i = balanceOf s i
  exact balanceOf_ensure_user s i i

theorem get_balance_snd (s : ShopState) (i : Int) :
    (get_balance s i).2 = ensure_user s i := rfl

theorem add_purchase_purchases (s : ShopState) (buyer : Int) (iid : Nat)
    (price : Int) (ts : String) :
    (add_purchase s buyer iid price ts).purchases =
      s.purchases ++ [⟨s.next_purchase_id, buyer, iid, price, ts⟩] := rfl

theorem add_purchase_transfers (s : ShopState) (buyer : Int) (iid : Nat)
    (price : Int) (ts : String) :
    (add_purchase s buyer iid price ts).transfers = s.transfers := rfl

theorem add_purchase_items (s : ShopState) (buyer : Int) (iid : Nat)
    (price : Int) (ts : String) :
    (add_purchase s buyer iid price ts).items = s.items := rfl

theorem add_purchase_settings (s : ShopState) (buyer : Int) (iid : Nat)
    (price : Int) (ts : String) :
    (add_purchase s buyer iid price ts).settings = s.settings := rfl

theorem add_purchase_balance_self (s : ShopState) (buyer : Int) (iid : Nat)
    (price : Int) (ts : String)
    (hb : (usersLookup s.users buyer).isSome = true) :
    balanceOf (add_purchase s buyer iid price ts) buyer =
      balanceOf s buyer - price := by
  have h1 := balanceOf_updateBalance_self
    { s with
      purchases := s.purchases ++ [⟨s.next_purchase_id, buyer, iid, price, ts⟩],
      next_purchase_id := s.next_purchase_id + 1 } buyer (-price) hb
  have h2 : balanceOf (add_purchase s buyer iid price ts) buyer =
      balanceOf s buyer + (-price) := h1
  rw [h2]
  ring

theorem add_purchase_balance_other (s : ShopState) (buyer : Int) (iid : Nat)
    (price : Int) (ts : String) (x : Int) (hx : x ≠ buyer) :
    balanceOf (add_purchase s buyer iid price ts) x = balanceOf s x := by
  have h1 := balanceOf_updateBalance_other
    { s with
      purchases := s.purchases ++ [⟨s.next_purchase_id, buyer, iid, price, ts⟩],
      next_purchase_id := s.next_purchase_id + 1 } buyer (-price) x hx
  exact h1

theorem add_purchase_isSome (s : ShopState) (buyer : Int) (iid : Nat)
    (price : Int) (ts : String) (x : Int) :
    (usersLookup (add_purchase s buyer iid price ts).users x).isSome =
      (usersLookup s.users x).isSome := by
  have h1 := updateBalance_isSome
    { s with
      purchases := s.purchases ++ [⟨s.next_purchase_id, buyer, iid, price, ts⟩],
      next_purchase_id := s.next_purchase_id + 1 } buyer (-price) x
  exact h1

theorem add_balance_balance_self (s : ShopState) (i c : Int) :
    balanceOf (add_balance s i c) i = balanceOf s i + c := by
  unfold add_balance
  rw [balanceOf_updateBalance_self _ _ _ (ensure_user_isSome_self s i),
    balanceOf_ensure_user]

theorem add_balance_purchases (s : ShopState) (i c : Int) :
    (add_balance s i c).purchases = s.purchases := by
  unfold add_balance
  show (ensure_user s i).purchases = s.purchases
  exact ensure_user_purchases s i

theorem deliver_file_oversize (size : Nat) (sendOk : Bool)
    (h : MAX_UPLOAD_BYTES < size) :
    deliver_file (.fetched size sendOk) = .ok (false, .payloadTooLarge size) := by
  simp only [deliver_file]
  rw [if_neg (not_le.mpr h)]

/-- The shared shape of every delivery failure that `deliver_file`
*returns* (a failure raised inside its `try` block) at the confirm
step: validation passed, `add_purchase` ran, delivery failed,
`add_balance` refunded. -/
theorem handleConfirm_failure_core (s : ShopState) (buyer : Int) (iid : Nat)
    (ts : String) (fetch : FetchOutcome) (item : Item) (r : DeliverReason)
    (hitem : get_item s iid = some item)
    (hactive : item.is_active ≠ 0)
    (hopen : get_setting s "shop_open" "1" = "1")
    (hbal : item.price_cents ≤ balanceOf s buyer)
    (hfail : deliver_file fetch = .ok (false, r)) :
    handleConfirm s buyer iid ts fetch =
      (.refunded r,
        add_balance
          (add_purchase (ensure_user s buyer) buyer item.id item.price_cents ts)
          buyer item.price_cents) := by
  have hlt : ¬ ((get_balance s buyer).1 < item.price_cents) := by
    rw [get_balance_fst]
    exact not_lt.mpr hbal
  simp only [handleConfirm]
  rw [hitem]
  simp only [if_neg hactive, if_pos hopen, if_neg hlt, hfail]
  simp [get_balance_snd]

/-- Balance and ledger consequences of a returned delivery failure. -/
theorem handleConfirm_failure_props (s : ShopState) (buyer : Int) (iid : Nat)
    (ts : String) (fetch : FetchOutcome) (item : Item) (r : DeliverReason)
    (hitem : get_item s iid = some item)
    (hactive : item.is_active ≠ 0)
    (hopen : get_setting s "shop_open" "1" = "1")
    (hbal : item.price_cents ≤ balanceOf s buyer)
    (hfail : deliver_file fetch = .ok (false, r)) :
    (handleConfirm s buyer iid ts fetch).1 = .refunded r ∧
    balanceOf (handleConfirm s buyer iid ts fetch).2 buyer = balanceOf s buyer ∧
    (handleConfirm s buyer iid ts fetch).2.purchases =
      s.purchases ++
        [⟨s.next_purchase_id, buyer, item.id, item.price_cents, ts⟩] := by
  rw [handleConfirm_failure_core s buyer iid ts fetch item r hitem hactive
    hopen hbal hfail]
  refine ⟨rfl, ?_, ?_⟩
  · rw [add_balance_balance_self,
      add_purchase_balance_self _ _ _ _ _ (ensure_user_isSome_self s buyer),
      balanceOf_ensure_user]
    ring
  · rw [add_balance_purchases, add_purchase_purchases, ensure_user_purchases,
      ensure_user_next_purchase_id]

/-! ### Claim C2 -/

/-- Claim C2 counterexample: `add_purchase` on a buyer with no `users`
row appends the purchase record, yet the debit silently does not apply
(the balance stays 0 instead of dropping by the price), so "either both
take effect or neither does" fails on this concrete input. -/
theorem add_purchase_missing_buyer_cex :
    (add_purchase ⟨[], [], [], [], [], 1, 1, 1⟩ 1 1 100 "t").purchases =
      [⟨1, 1, 1, 100, "t"⟩] ∧
    balanceOf (add_purchase ⟨[], [], [], [], [], 1, 1, 1⟩ 1 1 100 "t") 1 = 0 ∧
    ¬ balanceOf (add_purchase ⟨[], [], [], [], [], 1, 1, 1⟩ 1 1 100 "t") 1 =
        balanceOf (⟨[], [], [], [], [], 1, 1, 1⟩ : ShopState) 1 - 100 := by
  decide

/-- Claim C2 (amended): when the buyer has an account row, the single
transaction of `add_purchase(buyer, item, price)` both appends exactly
the one purchase record and debits the buyer by `price`, leaving every
other account and every other table untouched. -/
theorem add_purchase_atomic_of_buyer_present (s : ShopState) (buyer : Int)
    (iid : Nat) (price : Int) (ts : String)
    (hb : (usersLookup s.users buyer).isSome = true) :
    (add_purchase s buyer iid price ts).purchases =
      s.purchases ++ [⟨s.next_purchase_id, buyer, iid, price, ts⟩] ∧
    balanceOf (add_purchase s buyer iid price ts) buyer =
      balanceOf s buyer - price ∧
    (∀ x, x ≠ buyer →
      balanceOf (add_purchase s buyer iid price ts) x = balanceOf s x) ∧
    (add_purchase s buyer iid price ts).transfers = s.transfers ∧
    (add_purchase s buyer iid price ts).items = s.items ∧
    (add_purchase s buyer iid price ts).settings = s.settings := by
  refine ⟨add_purchase_purchases s buyer iid price ts,
    add_purchase_balance_self s buyer iid price ts hb,
    fun x hx => add_purchase_balance_other s buyer iid price ts x hx,
    rfl, rfl, rfl⟩

/-- Witness for the amended C2 at a concrete state with an account row. -/
theorem add_purchase_atomic_witness :
    (add_purchase ⟨[(1, 500)], [], [], [], [], 1, 3, 1⟩ 1 2 100 "t").purchases =
      [⟨3, 1, 2, 100, "t"⟩] ∧
    balanceOf (add_purchase ⟨[(1, 500)], [], [], [], [], 1, 3, 1⟩ 1 2 100 "t") 1 =
      400 := by
  have h := add_purchase_atomic_of_buyer_present
    ⟨[(1, 500)], [], [], [], [], 1, 3, 1⟩ 1 2 100 "t" (by decide)
  exact ⟨h.1, by rw [h.2.1]; decide⟩

/-! ### Claim C5 -/

/-- Claim C5: at the confirm step the item and the global shop-open
setting are re-checked before any money moves: a missing or inactive
item yields `itemUnavailable`, an active item with the shop closed
yields `shopClosed`, and in every such case the state — balances and
purchase records included — is returned exactly unchanged. -/
theorem confirm_recheck_blocks_purchase (s : ShopState) (buyer : Int)
    (iid : Nat) (ts : String) (fetch : FetchOutcome) :
    (get_item s iid = none →
      handleConfirm s buyer iid ts fetch = (.itemUnavailable, s)) ∧
    (∀ item, get_item s iid = some item → item.is_active = 0 →
      handleConfirm s buyer iid ts fetch = (.itemUnavailable, s)) ∧
    (∀ item, get_item s iid = some item → item.is_active ≠ 0 →
      get_setting s "shop_open" "1" ≠ "1" →
      handleConfirm s buyer iid ts fetch = (.shopClosed, s)) := by
  refine ⟨?_, ?_, ?_⟩
  · intro h
    simp only [handleConfirm]
    rw [h]
  · intro item h hact
    simp only [handleConfirm]
    rw [h]
    simp [hact]
  · intro item h hact hclosed
    simp only [handleConfirm]
    rw [h]
    simp [hact, hclosed]

/-- Witness for C5: a deactivated item and a closed shop, each at the
confirm step, fail without touching the state. -/
theorem confirm_recheck_witness :
    handleConfirm
        ⟨[(1, 10000)], [⟨1, "clip", 10000, "u", "video.mp4", 0⟩], [], [],
          [("shop_open", "1")], 2, 1, 1⟩ 1 1 "t" .timeout =
      (.itemUnavailable,
        ⟨[(1, 10000)], [⟨1, "clip", 10000, "u", "video.mp4", 0⟩], [], [],
          [("shop_open", "1")], 2, 1, 1⟩) ∧
    handleConfirm
        ⟨[(1, 10000)], [⟨1, "clip", 10000, "u", "video.mp4", 1⟩], [], [],
          [("shop_open", "0")], 2, 1, 1⟩ 1 1 "t" .timeout =
      (.shopClosed,
        ⟨[(1, 10000)], [⟨1, "clip", 10000, "u", "video.mp4", 1⟩], [], [],
          [("shop_open", "0")], 2, 1, 1⟩) := by
  constructor
  · exact (confirm_recheck_blocks_purchase
      ⟨[(1, 10000)], [⟨1, "clip", 10000, "u", "video.mp4", 0⟩], [], [],
        [("shop_open", "1")], 2, 1, 1⟩ 1 1 "t" .timeout).2.1
      ⟨1, "clip", 10000, "u", "video.mp4", 0⟩ (by decide) (by decide)
  · exact (confirm_recheck_blocks_purchase
      ⟨[(1, 10000)], [⟨1, "clip", 10000, "u", "video.mp4", 1⟩], [], [],
        [("shop_open", "0")], 2, 1, 1⟩ 1 1 "t" .timeout).2.2
      ⟨1, "clip", 10000, "u", "video.mp4", 1⟩ (by decide) (by decide) (by decide)

/-! ### Claim C7 -/

/-- Claim C7: the fetcher writes its output strictly under the requested
filename hint: a hint already ending in the recognized `.mp4` extension
is used unchanged, a hint without it gets `.mp4` appended, and the
resulting name always carries the recognized extension. -/
theorem download_filename_extension (hint : List Char) :
    (endsWithL hint mp4Ext = true → outputFilename hint = hint) ∧
    (endsWithL hint mp4Ext = false → outputFilename hint = hint ++ mp4Ext) ∧
    endsWithL (outputFilename hint) mp4Ext = true := by
  have happ : endsWithL (hint ++ mp4Ext) mp4Ext = true := by
    unfold endsWithL
    rw [List.length_append, Nat.add_sub_cancel, List.drop_left]
    simp
  refine ⟨?_, ?_, ?_⟩
  · intro h
    unfold outputFilename
    rw [if_pos h]
  · intro h
    unfold outputFilename
    rw [if_neg (by simp [h])]
  · unfold outputFilename
    cases h : endsWithL hint mp4Ext with
    | true => simpa using h
    | false => simpa using happ

/-- Witness for C7 on hints with and without the extension. -/
theorem download_filename_extension_witness :
    outputFilename ['c', 'l', 'i', 'p', '.', 'm', 'p', '4'] =
      ['c', 'l', 'i', 'p', '.', 'm', 'p', '4'] ∧
    outputFilename ['c', 'l', 'i', 'p'] =
      ['c', 'l', 'i', 'p', '.', 'm', 'p', '4'] := by
  constructor
  · exact (download_filename_extension
      ['c', 'l', 'i', 'p', '.', 'm', 'p', '4']).1 (by decide)
  · have h := (download_filename_extension ['c', 'l', 'i', 'p']).2.1 (by decide)
    rw [h]
    rfl

/-! ### Claim C9 -/

/-- Claim C9: `upsert_item` with no id inserts a new item that is active
by default and returns the freshly assigned id (fresh by the
AUTOINCREMENT invariant); with an id absent from the catalog it is a
silent no-op that returns the given id and leaves the state exactly
unchanged. -/
theorem upsert_item_spec (s : ShopState) (name : String) (price : Int)
    (url fname : String) :
    ((upsert_item s name price url fname none).1 = s.next_item_id ∧
     (upsert_item s name price url fname none).2.items =
       s.items ++ [⟨s.next_item_id, name, price, url, fname, 1⟩] ∧
     (ItemsWF s → ∀ it ∈ s.items, it.id ≠ s.next_item_id)) ∧
    ∀ iid, (∀ it ∈ s.items, it.id ≠ iid) →
      upsert_item s name price url fname (some iid) = (iid, s) := by
  constructor
  · refine ⟨rfl, rfl, ?_⟩
    intro hwf it hit
    exact Nat.ne_of_lt (hwf it hit)
  · intro iid h
    simp only [upsert_item]
    rw [itemsMap_no_match s.items iid _ h]

/-- Witness for C9: insert assigns id 2 in a one-item catalog; an update
aimed at the absent id 7 changes nothing. -/
theorem upsert_item_spec_witness :
    (upsert_item ⟨[], [⟨1, "a", 5, "u", "f", 1⟩], [], [], [], 2, 1, 1⟩
        "b" 9 "v" "g" none).1 = 2 ∧
    upsert_item ⟨[], [⟨1, "a", 5, "u", "f", 1⟩], [], [], [], 2, 1, 1⟩
        "b" 9 "v" "g" (some 7) =
      (7, ⟨[], [⟨1, "a", 5, "u", "f", 1⟩], [], [], [], 2, 1, 1⟩) := by
  constructor
  · exact (upsert_item_spec
      ⟨[], [⟨1, "a", 5, "u", "f", 1⟩], [], [], [], 2, 1, 1⟩ "b" 9 "v" "g").1.1
  · exact (upsert_item_spec
      ⟨[], [⟨1, "a", 5, "u", "f", 1⟩], [], [], [], 2, 1, 1⟩ "b" 9 "v" "g").2
      7 (by decide)

/-! ### Claim C3 -/

/-- Claim C3 counterexample: a transfer that fails with insufficient
funds still mutates state — `ensure_user` has already inserted
zero-balance rows for both parties before the balance check. -/
theorem transfer_insufficient_mutates_cex :
    (transfer_balance ⟨[], [], [], [], [], 1, 1, 1⟩ 1 2 5 "t").1 =
      TransferResult.insufficientFunds ∧
    (transfer_balance ⟨[], [], [], [], [], 1, 1, 1⟩ 1 2 5 "t").2 ≠
      ⟨[], [], [], [], [], 1, 1, 1⟩ ∧
    (transfer_balance ⟨[], [], [], [], [], 1, 1, 1⟩ 1 2 5 "t").2.users =
      [(1, 0), (2, 0)] := by
  decide

/-- Claim C3 (amended): `transfer_balance` fails with the invalid-amount
style reasons on a non-positive amount or a self-transfer, leaving the
state exactly unchanged; it fails with `insufficientFunds` when the
sender's balance is short, leaving every observable balance and every
other table unchanged (though zero-balance account rows for the two
parties may have been lazily created); and when all checks pass it
debits the sender, credits the receiver, leaves third-party balances
unchanged and appends exactly one transfer record. -/
theorem transfer_balance_spec (s : ShopState) (fromId toId amt : Int)
    (ts : String) :
    (amt ≤ 0 → transfer_balance s fromId toId amt ts = (.nonPositiveAmount, s)) ∧
    (0 < amt → fromId = toId →
      transfer_balance s fromId toId amt ts = (.selfTransfer, s)) ∧
    (0 < amt → fromId ≠ toId → balanceOf s fromId < amt →
      (transfer_balance s fromId toId amt ts).1 = .insufficientFunds ∧
      (∀ x, balanceOf (transfer_balance s fromId toId amt ts).2 x =
        balanceOf s x) ∧
      (transfer_balance s fromId toId amt ts).2.transfers = s.transfers ∧
      (transfer_balance s fromId toId amt ts).2.purchases = s.purchases ∧
      (transfer_balance s fromId toId amt ts).2.items = s.items ∧
      (transfer_balance s fromId toId amt ts).2.settings = s.settings) ∧
    (0 < amt → fromId ≠ toId → amt ≤ balanceOf s fromId →
      (transfer_balance s fromId toId amt ts).1 = .ok ∧
      balanceOf (transfer_balance s fromId toId amt ts).2 fromId =
        balanceOf s fromId - amt ∧
      balanceOf (transfer_balance s fromId toId amt ts).2 toId =
        balanceOf s toId + amt ∧
      (∀ x, x ≠ fromId → x ≠ toId →
        balanceOf (transfer_balance s fromId toId amt ts).2 x = balanceOf s x) ∧
      (transfer_balance s fromId toId amt ts).2.transfers =
        s.transfers ++ [⟨s.next_transfer_id, fromId, toId, amt, ts⟩]) := by
  have hb : balanceOf (ensure_user (ensure_user s fromId) toId) fromId =
      balanceOf s fromId := by
    rw [balanceOf_ensure_user, balanceOf_ensure_user]
  refine ⟨?_, ?_, ?_, ?_⟩
  · intro h
    simp only [transfer_balance]
    rw [if_pos h]
  · intro h1 h2
    simp only [transfer_balance]
    rw [if_neg (not_le.mpr h1), if_pos h2]
  · intro h1 h2 h3
    have hcore : transfer_balance s fromId toId amt ts =
        (.insufficientFunds, ensure_user (ensure_user s fromId) toId) := by
      simp only [transfer_balance]
      rw [if_neg (not_le.mpr h1), if_neg h2, hb, if_pos h3]
    rw [hcore]
    refine ⟨rfl, fun x => ?_, ?_, ?_, ?_, ?_⟩
    · rw [balanceOf_ensure_user, balanceOf_ensure_user]
    · rw [ensure_user_transfers, ensure_user_transfers]
    · rw [ensure_user_purchases, ensure_user_purchases]
    · rw [ensure_user_items, ensure_user_items]
    · rw [ensure_user_settings, ensure_user_settings]
  · intro h1 h2 h3
    have hp1 : (usersLookup (ensure_user (ensure_user s fromId) toId).users
        fromId).isSome = true :=
      ensure_user_isSome_mono (ensure_user s fromId) toId fromId
        (ensure_user_isSome_self s fromId)
    have hp2 : (usersLookup (ensure_user (ensure_user s fromId) toId).users
        toId).isSome = true :=
      ensure_user_isSome_self (ensure_user s fromId) toId
    have htoFrom : toId ≠ fromId := fun hc => h2 hc.symm
    have ht : (updateBalance (updateBalance
        (ensure_user (ensure_user s fromId) toId) fromId (-amt)) toId
        amt).transfers = s.transfers := by
      show (ensure_user (ensure_user s fromId) toId).transfers = s.transfers
      rw [ensure_user_transfers, ensure_user_transfers]
    have hn : (updateBalance (updateBalance
        (ensure_user (ensure_user s fromId) toId) fromId (-amt)) toId
        amt).next_transfer_id = s.next_transfer_id := by
      show (ensure_user (ensure_user s fromId) toId).next_transfer_id =
        s.next_transfer_id
      rw [ensure_user_next_transfer_id, ensure_user_next_transfer_id]
    have hcore : transfer_balance s fromId toId amt ts =
        (.ok,
          { updateBalance (updateBalance
              (ensure_user (ensure_user s fromId) toId) fromId (-amt)) toId amt
            with
            transfers := s.transfers ++ [⟨s.next_transfer_id, fromId, toId,
              amt, ts⟩],
            next_transfer_id := s.next_transfer_id + 1 }) := by
      simp only [transfer_balance]
      rw [if_neg (not_le.mpr h1), if_neg h2, hb, if_neg (not_lt.mpr h3)]
      rw [ht, hn]
    rw [hcore]
    refine ⟨rfl, ?_, ?_, ?_, ?_⟩
    · show balanceOf (updateBalance (updateBalance
        (ensure_user (ensure_user s fromId) toId) fromId (-amt)) toId amt)
        fromId = balanceOf s fromId - amt
      rw [balanceOf_updateBalance_other _ _ _ _ h2,
        balanceOf_updateBalance_self _ _ _ hp1, hb]
      ring
    · show balanceOf (updateBalance (updateBalance
        (ensure_user (ensure_user s fromId) toId) fromId (-amt)) toId amt)
        toId = balanceOf s toId + amt
      have hp2' : (usersLookup (updateBalance
          (ensure_user (ensure_user s fromId) toId) fromId (-amt)).users
          toId).isSome = true := by
        rw [updateBalance_isSome]
        exact hp2
      rw [balanceOf_updateBalance_self _ _ _ hp2',
        balanceOf_updateBalance_other _ _ _ _ htoFrom,
        balanceOf_ensure_user, balanceOf_ensure_user]
    · intro x hxf hxt
      show balanceOf (updateBalance (updateBalance
        (ensure_user (ensure_user s fromId) toId) fromId (-amt)) toId amt)
        x = balanceOf s x
      rw [balanceOf_updateBalance_other _ _ _ _ hxt,
        balanceOf_updateBalance_other _ _ _ _ hxf,
        balanceOf_ensure_user, balanceOf_ensure_user]
    · rfl

/-- Witness for the amended C3: a concrete successful transfer and a
concrete self-transfer rejection. -/
theorem transfer_balance_spec_witness :
    (transfer_balance ⟨[(1, 100), (2, 5)], [], [], [], [], 1, 1, 4⟩
        1 2 30 "t").1 = .ok ∧
    balanceOf (transfer_balance ⟨[(1, 100), (2, 5)], [], [], [], [], 1, 1, 4⟩
        1 2 30 "t").2 1 = 70 ∧
    balanceOf (transfer_balance ⟨[(1, 100), (2, 5)], [], [], [], [], 1, 1, 4⟩
        1 2 30 "t").2 2 = 35 ∧
    (transfer_balance ⟨[(1, 100), (2, 5)], [], [], [], [], 1, 1, 4⟩
        1 2 30 "t").2.transfers = [⟨4, 1, 2, 30, "t"⟩] ∧
    transfer_balance ⟨[(1, 100), (2, 5)], [], [], [], [], 1, 1, 4⟩ 1 1 30 "t" =
      (.selfTransfer, ⟨[(1, 100), (2, 5)], [], [], [], [], 1, 1, 4⟩) := by
  have h := (transfer_balance_spec ⟨[(1, 100), (2, 5)], [], [], [], [], 1, 1, 4⟩
    1 2 30 "t").2.2.2 (by decide) (by decide) (by decide)
  have hself := (transfer_balance_spec
    ⟨[(1, 100), (2, 5)], [], [], [], [], 1, 1, 4⟩ 1 1 30 "t").2.1
    (by decide) rfl
  refine ⟨h.1, ?_, ?_, h.2.2.2.2, hself⟩
  · rw [h.2.1]
    decide
  · rw [h.2.2.1]
    decide

/-! ### Claim C1 -/

/-- Claim C1 counterexample: a delivery-transport failure that is not
refunded.  When the delivery destination is the buyer's DM,
`deliver_file` resolves it with `await user.create_dm()` *before* its
`try` block; if that call raises, the exception escapes `deliver_file`
and `_handle` uncaught, skipping the `add_balance` refund.  Concretely:
validation passes, the debit of 10000 is applied and the purchase
record written, delivery fails, and the buyer's final balance is 0, not
the pre-purchase 10000 — debited with no asset and no refund. -/
theorem purchase_dm_failure_no_refund_cex :
    (handleConfirm ⟨[(1, 10000)], [⟨1, "clip", 10000, "u", "video.mp4", 1⟩],
        [], [], [("shop_open", "1")], 2, 1, 1⟩ 1 1 "t" .dmCreateRaised).1 =
      .uncaughtError ∧
    balanceOf (handleConfirm ⟨[(1, 10000)],
        [⟨1, "clip", 10000, "u", "video.mp4", 1⟩], [], [],
        [("shop_open", "1")], 2, 1, 1⟩ 1 1 "t" .dmCreateRaised).2 1 = 0 ∧
    balanceOf (⟨[(1, 10000)], [⟨1, "clip", 10000, "u", "video.mp4", 1⟩],
        [], [], [("shop_open", "1")], 2, 1, 1⟩ : ShopState) 1 = 10000 ∧
    (handleConfirm ⟨[(1, 10000)], [⟨1, "clip", 10000, "u", "video.mp4", 1⟩],
        [], [], [("shop_open", "1")], 2, 1, 1⟩ 1 1
        "t" .dmCreateRaised).2.purchases = [⟨1, 1, 1, 10000, "t"⟩] := by
  decide

/-- Claim C1 (amended): when confirm-step validation passes, the debit
is applied and the fetch or delivery then fails with a failure raised
*inside `deliver_file`'s guarded block* — fetch error, timeout,
oversize, or failure of the send itself, i.e. any failure after the
delivery destination has been resolved — the buyer is credited back
exactly the debited price before the error is surfaced, so the final
balance equals the pre-purchase balance, and exactly one purchase
record for the attempt remains with `price_cents` equal to the debited
price (the record is not deleted on refund).  If resolving the DM
destination itself raises, the exception escapes uncaught and no refund
occurs (see the counterexample). -/
theorem purchase_fetch_failure_refunds (s : ShopState) (buyer : Int)
    (iid : Nat) (ts : String) (fetch : FetchOutcome) (item : Item)
    (r : DeliverReason)
    (hitem : get_item s iid = some item)
    (hactive : item.is_active ≠ 0)
    (hopen : get_setting s "shop_open" "1" = "1")
    (hbal : item.price_cents ≤ balanceOf s buyer)
    (hfail : deliver_file fetch = .ok (false, r)) :
    (handleConfirm s buyer iid ts fetch).1 = .refunded r ∧
    balanceOf (handleConfirm s buyer iid ts fetch).2 buyer =
      balanceOf s buyer ∧
    (handleConfirm s buyer iid ts fetch).2.purchases =
      s.purchases ++
        [⟨s.next_purchase_id, buyer, item.id, item.price_cents, ts⟩] :=
  handleConfirm_failure_props s buyer iid ts fetch item r hitem hactive hopen
    hbal hfail

/-- Witness for C1: a concrete purchase whose download times out is
refunded in full and leaves one purchase record at the debited price. -/
theorem purchase_fetch_failure_refunds_witness :
    (handleConfirm ⟨[(1, 10000)], [⟨1, "clip", 10000, "u", "video.mp4", 1⟩],
        [], [], [("shop_open", "1")], 2, 1, 1⟩ 1 1 "t" .timeout).1 =
      .refunded .timeout ∧
    balanceOf (handleConfirm ⟨[(1, 10000)],
        [⟨1, "clip", 10000, "u", "video.mp4", 1⟩], [], [],
        [("shop_open", "1")], 2, 1, 1⟩ 1 1 "t" .timeout).2 1 = 10000 ∧
    (handleConfirm ⟨[(1, 10000)], [⟨1, "clip", 10000, "u", "video.mp4", 1⟩],
        [], [], [("shop_open", "1")], 2, 1, 1⟩ 1 1 "t" .timeout).2.purchases =
      [⟨1, 1, 1, 10000, "t"⟩] := by
  have h := purchase_fetch_failure_refunds
    ⟨[(1, 10000)], [⟨1, "clip", 10000, "u", "video.mp4", 1⟩], [], [],
      [("shop_open", "1")], 2, 1, 1⟩ 1 1 "t" .timeout
    ⟨1, "clip", 10000, "u", "video.mp4", 1⟩ .timeout
    (by decide) (by decide) (by decide) (by decide) rfl
  refine ⟨h.1, ?_, ?_⟩
  · rw [h.2.1]
    decide
  · rw [h.2.2]
    rfl

/-! ### Claim C6 -/

/-- Claim C6: an asset larger than `MAX_UPLOAD_BYTES` fails delivery and
takes the same refund path as any other fetch failure — the buyer gets
the full debited price back and the purchase record stays — with the
distinct oversized-payload reason, which carries the byte size that the
failure report interpolates for the buyer. -/
theorem oversize_delivery_refund (s : ShopState) (buyer : Int) (iid : Nat)
    (ts : String) (item : Item) (size : Nat) (sendOk : Bool)
    (hitem : get_item s iid = some item)
    (hactive : item.is_active ≠ 0)
    (hopen : get_setting s "shop_open" "1" = "1")
    (hbal : item.price_cents ≤ balanceOf s buyer)
    (hsize : MAX_UPLOAD_BYTES < size) :
    (handleConfirm s buyer iid ts (.fetched size sendOk)).1 =
      .refunded (.payloadTooLarge size) ∧
    balanceOf (handleConfirm s buyer iid ts (.fetched size sendOk)).2 buyer =
      balanceOf s buyer ∧
    (handleConfirm s buyer iid ts (.fetched size sendOk)).2.purchases =
      s.purchases ++
        [⟨s.next_purchase_id, buyer, item.id, item.price_cents, ts⟩] ∧
    DeliverReason.payloadTooLarge size ≠ .timeout ∧
    DeliverReason.payloadTooLarge size ≠ .downloadError := by
  have h := handleConfirm_failure_props s buyer iid ts (.fetched size sendOk)
    item (.payloadTooLarge size) hitem hactive hopen hbal
    (deliver_file_oversize size sendOk hsize)
  exact ⟨h.1, h.2.1, h.2.2, by simp, by simp⟩

/-- Witness for C6: a file one byte over the 24 MiB limit is refused and
refunded, with the size reported in the reason. -/
theorem oversize_delivery_refund_witness :
    (handleConfirm ⟨[(1, 10000)], [⟨1, "clip", 10000, "u", "video.mp4", 1⟩],
        [], [], [("shop_open", "1")], 2, 1, 1⟩ 1 1 "t"
        (.fetched (MAX_UPLOAD_BYTES + 1) true)).1 =
      .refunded (.payloadTooLarge (MAX_UPLOAD_BYTES + 1)) ∧
    balanceOf (handleConfirm ⟨[(1, 10000)],
        [⟨1, "clip", 10000, "u", "video.mp4", 1⟩], [], [],
        [("shop_open", "1")], 2, 1, 1⟩ 1 1 "t"
        (.fetched (MAX_UPLOAD_BYTES + 1) true)).2 1 = 10000 := by
  have h := oversize_delivery_refund
    ⟨[(1, 10000)], [⟨1, "clip", 10000, "u", "video.mp4", 1⟩], [], [],
      [("shop_open", "1")], 2, 1, 1⟩ 1 1 "t"
    ⟨1, "clip", 10000, "u", "video.mp4", 1⟩ (MAX_UPLOAD_BYTES + 1) true
    (by decide) (by decide) (by decide) (by decide)
    (Nat.lt_succ_self MAX_UPLOAD_BYTES)
  refine ⟨h.1, ?_⟩
  rw [h.2.1]
  decide

/-! ### Claim C4 -/

/-- Claim C4 counterexample: after the referenced item is deleted, the
purchase record still sits in the `purchases` table but the inner JOIN
of `get_my_purchases` drops it — the dangling record is NOT included in
the returned sequence. -/
theorem purchases_dangling_item_omitted_cex :
    (delete_item ⟨[(1, 0)], [⟨1, "clip", 100, "u", "f.mp4", 1⟩],
        [⟨1, 1, 1, 100, "t"⟩], [], [], 2, 2, 1⟩ 1).2.purchases =
      [⟨1, 1, 1, 100, "t"⟩] ∧
    get_my_purchases
        (delete_item ⟨[(1, 0)], [⟨1, "clip", 100, "u", "f.mp4", 1⟩],
          [⟨1, 1, 1, 100, "t"⟩], [], [], 2, 2, 1⟩ 1).2 1 20 = [] := by
  decide

/-- Claim C4 (amended): `get_my_purchases` returns exactly the
account's purchase records *whose item still exists*, most recent first
(largest purchase id first, under the AUTOINCREMENT invariant) and
bounded by the limit: the output length is the minimum of the limit and
the number of matching records, every output row comes from a matching
stored record, and every matching stored record appears in the output
unless the output is already full with strictly more recent records.
Records whose item was deleted remain stored but are omitted from the
returned sequence. -/
theorem get_my_purchases_spec (s : ShopState) (uid : Int) (limit : Nat)
    (hwf : PurchasesWF s) :
    (get_my_purchases s uid limit).length ≤ limit ∧
    ((get_my_purchases s uid limit).map (·.1)).Pairwise (· > ·) ∧
    (∀ x ∈ get_my_purchases s uid limit, ∃ p ∈ s.purchases,
      p.discord_id = uid ∧ (get_item s p.item_id).isSome = true ∧
      x = purchaseRow s p) ∧
    (get_my_purchases s uid limit).length =
      min limit (s.purchases.filter fun p =>
        p.discord_id = uid ∧ (get_item s p.item_id).isSome).length ∧
    ∀ p ∈ s.purchases, p.discord_id = uid →
      (get_item s p.item_id).isSome = true →
      purchaseRow s p ∈ get_my_purchases s uid limit ∨
      ((get_my_purchases s uid limit).length = limit ∧
        ∀ x ∈ get_my_purchases s uid limit, p.id < x.1) := by
  refine ⟨?_, ?_, ?_, ?_, ?_⟩
  · unfold get_my_purchases
    rw [List.length_map]
    exact List.length_take_le _ _
  · unfold get_my_purchases
    rw [List.map_map]
    have hco : (fun x : Nat × String × Int × String => x.1) ∘ purchaseRow s =
        PurchaseRec.id := rfl
    rw [hco]
    have h1 : ((s.purchases.filter fun p =>
        p.discord_id = uid ∧ (get_item s p.item_id).isSome).map
          PurchaseRec.id).Pairwise (· < ·) :=
      List.Pairwise.sublist
        (List.Sublist.map PurchaseRec.id (List.filter_sublist _)) hwf
    have h2 : (((s.purchases.filter fun p =>
        p.discord_id = uid ∧ (get_item s p.item_id).isSome).reverse.take
          limit).map PurchaseRec.id).Pairwise (· > ·) := by
      rw [List.map_take, List.map_reverse]
      refine List.Pairwise.sublist (List.take_sublist _ _) ?_
      rw [List.pairwise_reverse]
      exact h1
    exact h2
  · intro x hx
    unfold get_my_purchases at hx
    rw [List.mem_map] at hx
    obtain ⟨p, hp, rfl⟩ := hx
    have hp2 : p ∈ (s.purchases.filter fun p =>
        p.discord_id = uid ∧ (get_item s p.item_id).isSome) := by
      have := List.mem_of_mem_take hp
      exact List.mem_reverse.mp this
    rw [List.mem_filter] at hp2
    have hd := hp2.2
    simp only [decide_eq_true_eq, Bool.and_eq_true] at hd
    refine ⟨p, hp2.1, ?_, ?_, rfl⟩
    · exact hd.1
    · exact hd.2
  · unfold get_my_purchases
    rw [List.length_map, List.length_take, List.length_reverse]
  · intro p hp hdid hsome
    have hpF : p ∈ (s.purchases.filter fun p =>
        p.discord_id = uid ∧ (get_item s p.item_id).isSome) := by
      rw [List.mem_filter]
      refine ⟨hp, ?_⟩
      simp [hdid, hsome]
    have hpR : p ∈ (s.purchases.filter fun p =>
        p.discord_id = uid ∧ (get_item s p.item_id).isSome).reverse :=
      List.mem_reverse.mpr hpF
    by_cases htake : p ∈ ((s.purchases.filter fun p =>
        p.discord_id = uid ∧ (get_item s p.item_id).isSome).reverse.take limit)
    · left
      unfold get_my_purchases
      exact List.mem_map_of_mem (purchaseRow s) htake
    · right
      have hdrop : p ∈ ((s.purchases.filter fun p =>
          p.discord_id = uid ∧
            (get_item s p.item_id).isSome).reverse.drop limit) := by
        have hmem := hpR
        rw [← List.take_append_drop limit ((s.purchases.filter fun p =>
          p.discord_id = uid ∧ (get_item s p.item_id).isSome).reverse)] at hmem
        rcases List.mem_append.mp hmem with h | h
        · exact absurd h htake
        · exact h
      have hlen : limit < ((s.purchases.filter fun p =>
          p.discord_id = uid ∧
            (get_item s p.item_id).isSome).reverse).length := by
        by_contra hle
        push_neg at hle
        rw [List.take_of_length_le hle] at htake
        exact htake hpR
      constructor
      · unfold get_my_purchases
        rw [List.length_map, List.length_take]
        exact Nat.min_eq_left (Nat.le_of_lt hlen)
      · intro x hx
        unfold get_my_purchases at hx
        rw [List.mem_map] at hx
        obtain ⟨q, hq, rfl⟩ := hx
        have hpw : (((s.purchases.filter fun p =>
            p.discord_id = uid ∧
              (get_item s p.item_id).isSome).reverse).map
            PurchaseRec.id).Pairwise (· > ·) := by
          rw [List.map_reverse, List.pairwise_reverse]
          exact List.Pairwise.sublist
            (List.Sublist.map PurchaseRec.id (List.filter_sublist _)) hwf
        have hdecomp : (((s.purchases.filter fun p =>
            p.discord_id = uid ∧
              (get_item s p.item_id).isSome).reverse).map PurchaseRec.id) =
            (((s.purchases.filter fun p =>
              p.discord_id = uid ∧
                (get_item s p.item_id).isSome).reverse.take limit).map
              PurchaseRec.id) ++
            (((s.purchases.filter fun p =>
              p.discord_id = uid ∧
                (get_item s p.item_id).isSome).reverse.drop limit).map
              PurchaseRec.id) := by
          rw [← List.map_append, List.take_append_drop]
        rw [hdecomp, List.pairwise_append] at hpw
        exact hpw.2.2 q.id (List.mem_map_of_mem PurchaseRec.id hq) p.id
          (List.mem_map_of_mem PurchaseRec.id hdrop)

/-- Witness for the amended C4 at a concrete three-purchase history:
boundedness, order and soundness as before, plus the exact output
length (two of the three records match) and completeness for every
matching record. -/
theorem get_my_purchases_spec_witness :
    (get_my_purchases ⟨[(1, 0)], [⟨1, "a", 5, "u", "f", 1⟩],
        [⟨1, 1, 1, 5, "t1"⟩, ⟨2, 2, 1, 5, "t2"⟩, ⟨3, 1, 1, 5, "t3"⟩], [], [],
        2, 4, 1⟩ 1 2).length ≤ 2 ∧
    ((get_my_purchases ⟨[(1, 0)], [⟨1, "a", 5, "u", "f", 1⟩],
        [⟨1, 1, 1, 5, "t1"⟩, ⟨2, 2, 1, 5, "t2"⟩, ⟨3, 1, 1, 5, "t3"⟩], [], [],
        2, 4, 1⟩ 1 2).map (·.1)).Pairwise (· > ·) ∧
    (∀ x ∈ get_my_purchases ⟨[(1, 0)], [⟨1, "a", 5, "u", "f", 1⟩],
        [⟨1, 1, 1, 5, "t1"⟩, ⟨2, 2, 1, 5, "t2"⟩, ⟨3, 1, 1, 5, "t3"⟩], [], [],
        2, 4, 1⟩ 1 2, ∃ p ∈ (⟨[(1, 0)], [⟨1, "a", 5, "u", "f", 1⟩],
        [⟨1, 1, 1, 5, "t1"⟩, ⟨2, 2, 1, 5, "t2"⟩, ⟨3, 1, 1, 5, "t3"⟩], [], [],
        2, 4, 1⟩ : ShopState).purchases,
      p.discord_id = 1 ∧
      (get_item (⟨[(1, 0)], [⟨1, "a", 5, "u", "f", 1⟩],
        [⟨1, 1, 1, 5, "t1"⟩, ⟨2, 2, 1, 5, "t2"⟩, ⟨3, 1, 1, 5, "t3"⟩], [], [],
        2, 4, 1⟩ : ShopState) p.item_id).isSome = true ∧
      x = purchaseRow (⟨[(1, 0)], [⟨1, "a", 5, "u", "f", 1⟩],
        [⟨1, 1, 1, 5, "t1"⟩, ⟨2, 2, 1, 5, "t2"⟩, ⟨3, 1, 1, 5, "t3"⟩], [], [],
        2, 4, 1⟩ : ShopState) p) ∧
    (get_my_purchases ⟨[(1, 0)], [⟨1, "a", 5, "u", "f", 1⟩],
        [⟨1, 1, 1, 5, "t1"⟩, ⟨2, 2, 1, 5, "t2"⟩, ⟨3, 1, 1, 5, "t3"⟩], [], [],
        2, 4, 1⟩ 1 2).length =
      min 2 ((⟨[(1, 0)], [⟨1, "a", 5, "u", "f", 1⟩],
        [⟨1, 1, 1, 5, "t1"⟩, ⟨2, 2, 1, 5, "t2"⟩, ⟨3, 1, 1, 5, "t3"⟩], [], [],
        2, 4, 1⟩ : ShopState).purchases.filter fun p =>
          p.discord_id = 1 ∧
          (get_item (⟨[(1, 0)], [⟨1, "a", 5, "u", "f", 1⟩],
            [⟨1, 1, 1, 5, "t1"⟩, ⟨2, 2, 1, 5, "t2"⟩, ⟨3, 1, 1, 5, "t3"⟩],
            [], [], 2, 4, 1⟩ : ShopState) p.item_id).isSome).length ∧
    ∀ p ∈ (⟨[(1, 0)], [⟨1, "a", 5, "u", "f", 1⟩],
        [⟨1, 1, 1, 5, "t1"⟩, ⟨2, 2, 1, 5, "t2"⟩, ⟨3, 1, 1, 5, "t3"⟩], [], [],
        2, 4, 1⟩ : ShopState).purchases,
      p.discord_id = 1 →
      (get_item (⟨[(1, 0)], [⟨1, "a", 5, "u", "f", 1⟩],
        [⟨1, 1, 1, 5, "t1"⟩, ⟨2, 2, 1, 5, "t2"⟩, ⟨3, 1, 1, 5, "t3"⟩], [], [],
        2, 4, 1⟩ : ShopState) p.item_id).isSome = true →
      purchaseRow (⟨[(1, 0)], [⟨1, "a", 5, "u", "f", 1⟩],
        [⟨1, 1, 1, 5, "t1"⟩, ⟨2, 2, 1, 5, "t2"⟩, ⟨3, 1, 1, 5, "t3"⟩], [], [],
        2, 4, 1⟩ : ShopState) p ∈
          get_my_purchases ⟨[(1, 0)], [⟨1, "a", 5, "u", "f", 1⟩],
            [⟨1, 1, 1, 5, "t1"⟩, ⟨2, 2, 1, 5, "t2"⟩, ⟨3, 1, 1, 5, "t3"⟩],
            [], [], 2, 4, 1⟩ 1 2 ∨
      ((get_my_purchases ⟨[(1, 0)], [⟨1, "a", 5, "u", "f", 1⟩],
          [⟨1, 1, 1, 5, "t1"⟩, ⟨2, 2, 1, 5, "t2"⟩, ⟨3, 1, 1, 5, "t3"⟩],
          [], [], 2, 4, 1⟩ 1 2).length = 2 ∧
        ∀ x ∈ get_my_purchases ⟨[(1, 0)], [⟨1, "a", 5, "u", "f", 1⟩],
          [⟨1, 1, 1, 5, "t1"⟩, ⟨2, 2, 1, 5, "t2"⟩, ⟨3, 1, 1, 5, "t3"⟩],
          [], [], 2, 4, 1⟩ 1 2, p.id < x.1) :=
  get_my_purchases_spec
    ⟨[(1, 0)], [⟨1, "a", 5, "u", "f", 1⟩],
      [⟨1, 1, 1, 5, "t1"⟩, ⟨2, 2, 1, 5, "t2"⟩, ⟨3, 1, 1, 5, "t3"⟩], [], [],
      2, 4, 1⟩ 1 2 (by unfold PurchasesWF; decide)

/-! ### Claim C8 -/

/-- Claim C8: the sum of all balances changes only through paired
debit/credit operations — a successful `transfer_balance` leaves the
total unchanged, and a purchase debit followed by its refund credit
restores the total to its prior value. -/
theorem total_balance_conservation (s : ShopState) (hnd : UsersWF s)
    (fromId toId amt : Int) (ts : String) (buyer : Int) (iid : Nat)
    (price : Int) (hb : (usersLookup s.users buyer).isSome = true) :
    ((transfer_balance s fromId toId amt ts).1 = .ok →
      totalBalance (transfer_balance s fromId toId amt ts).2 =
        totalBalance s) ∧
    totalBalance (add_balance (add_purchase s buyer iid price ts) buyer
        price) =
      totalBalance s := by
  constructor
  · intro hok
    by_cases h1 : amt ≤ 0
    · have hred : transfer_balance s fromId toId amt ts =
          (.nonPositiveAmount, s) := by
        simp only [transfer_balance]
        rw [if_pos h1]
      rw [hred] at hok
      simp at hok
    · by_cases h2 : fromId = toId
      · have hred : transfer_balance s fromId toId amt ts =
            (.selfTransfer, s) := by
          simp only [transfer_balance]
          rw [if_neg h1, if_pos h2]
        rw [hred] at hok
        simp at hok
      · have hbEq : balanceOf (ensure_user (ensure_user s fromId) toId)
            fromId = balanceOf s fromId := by
          rw [balanceOf_ensure_user, balanceOf_ensure_user]
        by_cases h3 : balanceOf s fromId < amt
        · have hred : transfer_balance s fromId toId amt ts =
              (.insufficientFunds, ensure_user (ensure_user s fromId) toId) := by
            simp only [transfer_balance]
            rw [if_neg h1, if_neg h2, hbEq, if_pos h3]
          rw [hred] at hok
          simp at hok
        · have hW1 : UsersWF (ensure_user (ensure_user s fromId) toId) :=
            usersWF_ensure_user _ toId (usersWF_ensure_user s fromId hnd)
          have hW2 : UsersWF (updateBalance
              (ensure_user (ensure_user s fromId) toId) fromId (-amt)) :=
            usersWF_updateBalance _ _ _ hW1
          have hp1 : (usersLookup (ensure_user (ensure_user s fromId)
              toId).users fromId).isSome = true :=
            ensure_user_isSome_mono (ensure_user s fromId) toId fromId
              (ensure_user_isSome_self s fromId)
          have hp2 : (usersLookup (updateBalance
              (ensure_user (ensure_user s fromId) toId) fromId (-amt)).users
              toId).isSome = true := by
            rw [updateBalance_isSome]
            exact ensure_user_isSome_self (ensure_user s fromId) toId
          simp only [transfer_balance]
          rw [if_neg h1, if_neg h2, hbEq, if_neg h3]
          show totalBalance (updateBalance (updateBalance
            (ensure_user (ensure_user s fromId) toId) fromId (-amt)) toId
            amt) = totalBalance s
          rw [totalBalance_updateBalance _ toId amt hW2 hp2,
            totalBalance_updateBalance _ fromId (-amt) hW1 hp1,
            totalBalance_ensure_user, totalBalance_ensure_user]
          ring
  · have hps2 : (usersLookup (add_purchase s buyer iid price ts).users
        buyer).isSome = true := by
      rw [add_purchase_isSome]
      exact hb
    have hens : ensure_user (add_purchase s buyer iid price ts) buyer =
        add_purchase s buyer iid price ts :=
      ensure_user_users_of_isSome _ _ hps2
    have hW2 : UsersWF (add_purchase s buyer iid price ts) :=
      usersWF_updateBalance
        { s with
          purchases := s.purchases ++
            [⟨s.next_purchase_id, buyer, iid, price, ts⟩],
          next_purchase_id := s.next_purchase_id + 1 } buyer (-price) hnd
    have h4 : totalBalance (add_purchase s buyer iid price ts) =
        totalBalance s + (-price) :=
      totalBalance_updateBalance
        { s with
          purchases := s.purchases ++
            [⟨s.next_purchase_id, buyer, iid, price, ts⟩],
          next_purchase_id := s.next_purchase_id + 1 } buyer (-price) hnd hb
    show totalBalance (updateBalance
      (ensure_user (add_purchase s buyer iid price ts) buyer) buyer price) =
      totalBalance s
    rw [hens, totalBalance_updateBalance _ buyer price hW2 hps2, h4]
    ring

/-- Witness for C8 at a concrete two-account ledger. -/
theorem total_balance_conservation_witness :
    ((transfer_balance ⟨[(1, 100), (2, 5)], [], [], [], [], 1, 1, 1⟩
        1 2 30 "t").1 = .ok →
      totalBalance (transfer_balance ⟨[(1, 100), (2, 5)], [], [], [], [],
        1, 1, 1⟩ 1 2 30 "t").2 =
        totalBalance ⟨[(1, 100), (2, 5)], [], [], [], [], 1, 1, 1⟩) ∧
    totalBalance (add_balance
        (add_purchase ⟨[(1, 100), (2, 5)], [], [], [], [], 1, 1, 1⟩ 1 3 40 "t")
        1 40) =
      totalBalance ⟨[(1, 100), (2, 5)], [], [], [], [], 1, 1, 1⟩ :=
  total_balance_conservation ⟨[(1, 100), (2, 5)], [], [], [], [], 1, 1, 1⟩
    (by unfold UsersWF; decide) 1 2 30 "t" 1 3 40 (by decide)

/-! ### Claim C10 -/

theorem normalize_canonical (fid : List Char)
    (h1 : fid.all isIdChar = true) (h2 : 10 ≤ fid.length) :
    normalize_gdrive_for_download (canonPre ++ fid) = canonPre ++ fid := by
  have hg : _gdrive_file_id (_clean_link (canonPre ++ fid)) = some fid := by
    rw [clean_link_canonical fid h1 h2]
    unfold _gdrive_file_id
    rw [clean_link_canonical fid h1 h2, reSearchGdrive_canonical fid h1 h2]
  unfold normalize_gdrive_for_download
  rw [hg]

/-- Claim C10 counterexample: the normalizer is not idempotent.  The
bare slash-free input `abcdefghij!xyz` (length ≥ 10) is treated as a
file id and wrapped into the canonical URL, but re-normalizing that URL
re-extracts only the leading run `abcdefghij` of id characters after
`id=`, producing a different string. -/
theorem normalize_gdrive_not_idempotent_cex :
    normalize_gdrive_for_download
        ['a', 'b', 'c', 'd', 'e', 'f', 'g', 'h', 'i', 'j', '!', 'x', 'y', 'z'] =
      canonPre ++
        ['a', 'b', 'c', 'd', 'e', 'f', 'g', 'h', 'i', 'j', '!', 'x', 'y', 'z'] ∧
    normalize_gdrive_for_download (canonPre ++
        ['a', 'b', 'c', 'd', 'e', 'f', 'g', 'h', 'i', 'j', '!', 'x', 'y', 'z']) =
      canonPre ++ ['a', 'b', 'c', 'd', 'e', 'f', 'g', 'h', 'i', 'j'] ∧
    normalize_gdrive_for_download (normalize_gdrive_for_download
        ['a', 'b', 'c', 'd', 'e', 'f', 'g', 'h', 'i', 'j', '!', 'x', 'y', 'z']) ≠
      normalize_gdrive_for_download
        ['a', 'b', 'c', 'd', 'e', 'f', 'g', 'h', 'i', 'j', '!', 'x', 'y', 'z'] := by
  decide

/-- Claim C10 (amended): the normalizer is idempotent on every input
whose extracted file id consists solely of the id characters
`[A-Za-z0-9_-]` — in particular whenever the id was matched by the
`/d/`-or-`id=` regex — because such inputs map to the canonical
`https://drive.google.com/uc?id=<id>` form, which maps to itself.
Idempotence fails in general (see the counterexample) when a bare
slash-free id contains characters outside the id class. -/
theorem normalize_gdrive_idempotent_on_wellformed (s fid : List Char)
    (hfid : _gdrive_file_id (_clean_link s) = some fid)
    (hid : fid.all isIdChar = true) :
    normalize_gdrive_for_download (normalize_gdrive_for_download s) =
      normalize_gdrive_for_download s := by
  have hlen : 10 ≤ fid.length := gdrive_file_id_some _ _ hfid
  have h1 : normalize_gdrive_for_download s = canonPre ++ fid := by
    unfold normalize_gdrive_for_download
    rw [hfid]
  rw [h1]
  exact normalize_canonical fid hid hlen

/-- Witness for the amended C10 on a real `/d/`-style sharing link. -/
theorem normalize_gdrive_idempotent_witness :
    normalize_gdrive_for_download (normalize_gdrive_for_download
        "https://drive.google.com/file/d/ABCDEFGHIJK123/view".data) =
      normalize_gdrive_for_download
        "https://drive.google.com/file/d/ABCDEFGHIJK123/view".data :=
  normalize_gdrive_idempotent_on_wellformed
    "https://drive.google.com/file/d/ABCDEFGHIJK123/view".data
    "ABCDEFGHIJK123".data (by decide) (by decide)

end ShopBot
